import Mathlib

/-!
Shallow embedding of `src/browser/api/atom_api_dialog.cc` (the Electron
dialog API bridge): V8 value coercions, the three dialog entry points
(`ShowMessageBox`, `ShowOpenDialog`, `ShowSaveDialog`) and the callback
invocation helpers (`CallV8Function`, `CallV8Function2`), together with
theorems settling the specification claims.
-/

namespace AtomDialog

/-- A scripting-engine (V8) value, as observed by the bridge.  `vObject w`
carries the result of `Window::Unwrap` followed by `window->window()`:
`w = some h` when the object wraps a `Window` whose native window is
non-null, `w = none` otherwise.  `vFunction id` is a callable value,
identified by `id`. -/
inductive V8Value where
  | vUndefined : V8Value
  | vNull : V8Value
  | vBool (b : Bool) : V8Value
  | vNumber (n : Int) : V8Value
  | vString (s : String) : V8Value
  | vArray (elems : List V8Value) : V8Value
  | vObject (window : Option Nat) : V8Value
  | vFunction (id : Nat) : V8Value
  deriving Repr

namespace V8Value

/-- `value->IsNumber()`. -/
def isNumber : V8Value → Bool
  | vNumber _ => true
  | _ => false

/-- `value->IsArray()`. -/
def isArray : V8Value → Bool
  | vArray _ => true
  | _ => false

/-- `value->IsString()`. -/
def isString : V8Value → Bool
  | vString _ => true
  | _ => false

/-- `value->IsObject()`. -/
def isObject : V8Value → Bool
  | vObject _ => true
  | _ => false

/-- `value->IsFunction()`. -/
def isFunction : V8Value → Bool
  | vFunction _ => true
  | _ => false

/-- The elements of an array value (`v8_buttons->Get(i)` over
`v8_buttons->Length()`); empty for non-arrays. -/
def arrayElems : V8Value → List V8Value
  | vArray xs => xs
  | _ => []

end V8Value

open V8Value

mutual

/-- Modelled from the spec: the V8 engine's ToString used by
`v8::String::Utf8Value` (the engine itself is an external collaborator).
Strings pass through unchanged; a number renders as its decimal text; an
array joins its elements with commas, rendering `undefined` and `null`
elements as the empty string, JavaScript-style. -/
def jsToString : V8Value → String
  | .vUndefined => "undefined"
  | .vNull => "null"
  | .vBool b => cond b "true" "false"
  | .vNumber n => toString n
  | .vString s => s
  | .vObject _ => "[object Object]"
  | .vFunction _ => "function"
  | .vArray xs => String.intercalate "," (jsStringList xs)

/-- Element-wise rendering for array join: `undefined` and `null`
elements render as the empty string. -/
def jsStringList : List V8Value → List String
  | [] => []
  | .vUndefined :: rest => "" :: jsStringList rest
  | .vNull :: rest => "" :: jsStringList rest
  | x :: rest => jsToString x :: jsStringList rest

end

/-- Modelled from the spec: `base::FilePath` (external to src/), a
native file-system path holding the raw path bytes with no
normalization. -/
structure FilePath where
  bytes : String
  deriving Repr, DecidableEq

/-- Modelled from the spec: `base::FilePath::FromUTF8Unsafe` stores the
string's bytes as the path, unmodified. -/
def FilePath.FromUTF8Unsafe (s : String) : FilePath := ⟨s⟩

/-- Modelled from the spec: `base::FilePath::AsUTF8Unsafe` returns the
stored path bytes, unmodified. -/
def FilePath.AsUTF8Unsafe (p : FilePath) : String := p.bytes

/-- `FromV8Value::operator std::string()`:
`*v8::String::Utf8Value(value_)`. -/
def FromV8Value_string (v : V8Value) : String := jsToString v

/-- `FromV8Value::operator int()`: `value_->IntegerValue()`.  The bridge
only applies it to values validated as numbers; non-numbers yield 0. -/
def FromV8Value_int : V8Value → Int
  | .vNumber n => n
  | _ => 0

/-- `FromV8Value::operator base::FilePath()`:
`base::FilePath::FromUTF8Unsafe(FromV8Value(value_))`. -/
def FromV8Value_FilePath (v : V8Value) : FilePath :=
  FilePath.FromUTF8Unsafe (FromV8Value_string v)

/-- `FromV8Value::operator atom::NativeWindow*()`: if the value is an
object wrapping a `Window` whose `window()` is non-null, that native
window; otherwise `NULL`. -/
def FromV8Value_NativeWindow : V8Value → Option Nat
  | .vObject w => w
  | _ => none

/-- `FromV8Value::operator v8::Persistent<v8::Function>()`: a persistent
handle on the function when the value is callable, the empty persistent
handle otherwise.  `some id` models the non-empty handle. -/
def FromV8Value_Function : V8Value → Option Nat
  | .vFunction id => some id
  | _ => none

/-- `ToV8Value(const base::FilePath&)`: the path's bytes as a scripting
string. -/
def ToV8Value_FilePath (p : FilePath) : V8Value :=
  V8Value.vString (FilePath.AsUTF8Unsafe p)

/-- `ToV8Value(void*)`: always `v8::Undefined()`. -/
def ToV8Value_voidPtr (_ : Unit) : V8Value := V8Value.vUndefined

/-- `ToV8Value(int)`: `v8::Integer::New(code)`. -/
def ToV8Value_int (code : Int) : V8Value := V8Value.vNumber code

/-- `ToV8Value(const std::vector<base::FilePath>&)`: the array whose
i-th slot is `ToV8Value(paths[i])`. -/
def ToV8Value_FilePathList (paths : List FilePath) : V8Value :=
  V8Value.vArray (paths.map ToV8Value_FilePath)

/-- `CallV8Function<T>`: convert the argument with the `ToV8Value`
overload for `T`, invoke the callback once with that single value, then
dispose the persistent handle.  The result records the invocation values
(in order) and the number of `Dispose` calls. -/
def CallV8Function (toV8 : α → V8Value) (arg : α) : List V8Value × Nat :=
  ([toV8 arg], 1)

/-- `CallV8Function2<T>`: on success forward the argument through
`CallV8Function<T>`; on failure invoke `CallV8Function<void*>` with
`NULL` (which converts to `undefined`). -/
def CallV8Function2 (toV8 : α → V8Value) (result : Bool) (arg : α) :
    List V8Value × Nat :=
  if result then CallV8Function toV8 arg
  else CallV8Function ToV8Value_voidPtr ()

/-- The native dialog primitives (`atom::ShowMessageBox`,
`file_dialog::ShowOpenDialog`, `file_dialog::ShowSaveDialog`), external
collaborators.  Each is a function of the coerced native arguments; for
the file dialogs the `Bool` is the success flag (`false` = the user
cancelled) and is delivered identically to the synchronous return value
and to the asynchronous completion handler. -/
structure NativeLayer where
  messageBox : Option Nat → Int → List String → String → String → String → Int
  openDialog : Option Nat → String → FilePath → Int → Bool × List FilePath
  saveDialog : Option Nat → String → FilePath → Bool × FilePath

/-- The observable trace of a call that passed validation: the value
returned to the caller, the values the callback was invoked with (in
order, over the whole life of the call), and how many times the
callback handle was disposed. -/
structure CallTrace where
  ret : V8Value
  callbackCalls : List V8Value
  disposals : Nat
  deriving Repr

/-- The outcome of one entry-point call: either a thrown type error
(nothing else happened) or a completed call with its trace. -/
inductive Outcome where
  | typeError (msg : String) : Outcome
  | completed (t : CallTrace) : Outcome
  deriving Repr

/-- `args[i]` of `v8::Arguments`: out-of-range indices read as
`undefined`. -/
def getArg (args : List V8Value) (i : Nat) : V8Value :=
  args.getD i V8Value.vUndefined

/-- The shape check of `ShowMessageBox` (lines 115-119): type is a
number, buttons an array, title, message and detail strings. -/
def messageBoxShapeOk (args : List V8Value) : Bool :=
  (getArg args 0).isNumber && (getArg args 1).isArray &&
  (getArg args 2).isString && (getArg args 3).isString &&
  (getArg args 4).isString

/-- `ShowMessageBox` (lines 112-151): validate shapes, coerce window
(arg 5) and callback (arg 6), coerce the typed arguments; with an empty
callback call the synchronous native primitive and return its integer,
otherwise call the asynchronous form bound to `CallV8Function<int>` and
return `undefined`. -/
def ShowMessageBox (native : NativeLayer) (args : List V8Value) : Outcome :=
  if !messageBoxShapeOk args then
    Outcome.typeError "Bad argument"
  else
    let native_window := FromV8Value_NativeWindow (getArg args 5)
    let callback := FromV8Value_Function (getArg args 6)
    let type := FromV8Value_int (getArg args 0)
    let buttons := (getArg args 1).arrayElems.map FromV8Value_string
    let title := FromV8Value_string (getArg args 2)
    let message := FromV8Value_string (getArg args 3)
    let detail := FromV8Value_string (getArg args 4)
    match callback with
    | none =>
      let chosen := native.messageBox native_window type buttons title message detail
      Outcome.completed ⟨V8Value.vNumber chosen, [], 0⟩
    | some _ =>
      let chosen := native.messageBox native_window type buttons title message detail
      let fired := CallV8Function ToV8Value_int chosen
      Outcome.completed ⟨V8Value.vUndefined, fired.1, fired.2⟩

/-- The shape check of `ShowOpenDialog` (lines 156-158): title and
default path strings, properties a number. -/
def openDialogShapeOk (args : List V8Value) : Bool :=
  (getArg args 0).isString && (getArg args 1).isString &&
  (getArg args 2).isNumber

/-- `ShowOpenDialog` (lines 153-192): validate shapes, coerce window
(arg 3) and callback (arg 4); with an empty callback call the
synchronous native primitive, returning `undefined` on cancellation and
the array of path strings on success; otherwise bind
`CallV8Function2<const std::vector<base::FilePath>&>` as the completion
handler and return `undefined`. -/
def ShowOpenDialog (native : NativeLayer) (args : List V8Value) : Outcome :=
  if !openDialogShapeOk args then
    Outcome.typeError "Bad argument"
  else
    let native_window := FromV8Value_NativeWindow (getArg args 3)
    let callback := FromV8Value_Function (getArg args 4)
    let title := FromV8Value_string (getArg args 0)
    let default_path := FromV8Value_FilePath (getArg args 1)
    let properties := FromV8Value_int (getArg args 2)
    match callback with
    | none =>
      match native.openDialog native_window title default_path properties with
      | (false, _) => Outcome.completed ⟨V8Value.vUndefined, [], 0⟩
      | (true, paths) =>
        Outcome.completed ⟨V8Value.vArray (paths.map ToV8Value_FilePath), [], 0⟩
    | some _ =>
      let r := native.openDialog native_window title default_path properties
      let fired := CallV8Function2 ToV8Value_FilePathList r.1 r.2
      Outcome.completed ⟨V8Value.vUndefined, fired.1, fired.2⟩

/-- The shape check of `ShowSaveDialog` (lines 197-198): title and
default path strings. -/
def saveDialogShapeOk (args : List V8Value) : Bool :=
  (getArg args 0).isString && (getArg args 1).isString

/-- `ShowSaveDialog` (lines 194-224): validate shapes, coerce window
(arg 2) and callback (arg 3); with an empty callback call the
synchronous native primitive, returning `undefined` on cancellation and
the path string on success; otherwise bind
`CallV8Function2<const base::FilePath&>` as the completion handler and
return `undefined`. -/
def ShowSaveDialog (native : NativeLayer) (args : List V8Value) : Outcome :=
  if !saveDialogShapeOk args then
    Outcome.typeError "Bad argument"
  else
    let native_window := FromV8Value_NativeWindow (getArg args 2)
    let callback := FromV8Value_Function (getArg args 3)
    let title := FromV8Value_string (getArg args 0)
    let default_path := FromV8Value_FilePath (getArg args 1)
    match callback with
    | none =>
      match native.saveDialog native_window title default_path with
      | (false, _) => Outcome.completed ⟨V8Value.vUndefined, [], 0⟩
      | (true, path) => Outcome.completed ⟨ToV8Value_FilePath path, [], 0⟩
    | some _ =>
      let r := native.saveDialog native_window title default_path
      let fired := CallV8Function2 ToV8Value_FilePath r.1 r.2
      Outcome.completed ⟨V8Value.vUndefined, fired.1, fired.2⟩

/-- The synchronous native message-box result for a given argument list:
`atom::ShowMessageBox` applied to the coerced arguments (window from arg
5, type from arg 0, button labels from arg 1, title/message/detail from
args 2-4). -/
def mbNativeResult (native : NativeLayer) (args : List V8Value) : Int :=
  native.messageBox (FromV8Value_NativeWindow (getArg args 5))
    (FromV8Value_int (getArg args 0))
    ((getArg args 1).arrayElems.map FromV8Value_string)
    (FromV8Value_string (getArg args 2))
    (FromV8Value_string (getArg args 3))
    (FromV8Value_string (getArg args 4))

/-- The native open-dialog response (success flag, paths) for a given
argument list: `file_dialog::ShowOpenDialog` applied to the coerced
arguments. -/
def odNativeResult (native : NativeLayer) (args : List V8Value) :
    Bool × List FilePath :=
  native.openDialog (FromV8Value_NativeWindow (getArg args 3))
    (FromV8Value_string (getArg args 0))
    (FromV8Value_FilePath (getArg args 1))
    (FromV8Value_int (getArg args 2))

/-- The native save-dialog response (success flag, path) for a given
argument list: `file_dialog::ShowSaveDialog` applied to the coerced
arguments. -/
def sdNativeResult (native : NativeLayer) (args : List V8Value) :
    Bool × FilePath :=
  native.saveDialog (FromV8Value_NativeWindow (getArg args 2))
    (FromV8Value_string (getArg args 0))
    (FromV8Value_FilePath (getArg args 1))

/-- A concrete native layer used to instantiate universally quantified
theorems at specific inputs: the message box reports button index 0, the
file dialogs report success with an empty selection. -/
def sampleNative : NativeLayer where
  messageBox := fun _ _ _ _ _ _ => 0
  openDialog := fun _ _ _ _ => (true, [])
  saveDialog := fun _ _ _ => (true, ⟨""⟩)

theorem ShowMessageBox_shape_error (native : NativeLayer) (args : List V8Value)
    (h : messageBoxShapeOk args = false) :
    ShowMessageBox native args = Outcome.typeError "Bad argument" := by
  simp [ShowMessageBox, h]

theorem ShowOpenDialog_shape_error (native : NativeLayer) (args : List V8Value)
    (h : openDialogShapeOk args = false) :
    ShowOpenDialog native args = Outcome.typeError "Bad argument" := by
  simp [ShowOpenDialog, h]

theorem ShowSaveDialog_shape_error (native : NativeLayer) (args : List V8Value)
    (h : saveDialogShapeOk args = false) :
    ShowSaveDialog native args = Outcome.typeError "Bad argument" := by
  simp [ShowSaveDialog, h]

theorem ShowMessageBox_sync (native : NativeLayer) (args : List V8Value)
    (h : messageBoxShapeOk args = true)
    (hc : FromV8Value_Function (getArg args 6) = none) :
    ShowMessageBox native args =
      Outcome.completed ⟨V8Value.vNumber (mbNativeResult native args), [], 0⟩ := by
  simp [ShowMessageBox, h, hc, mbNativeResult]

theorem ShowMessageBox_async (native : NativeLayer) (args : List V8Value)
    (f : Nat) (h : messageBoxShapeOk args = true)
    (hc : FromV8Value_Function (getArg args 6) = some f) :
    ShowMessageBox native args =
      Outcome.completed
        ⟨V8Value.vUndefined, [V8Value.vNumber (mbNativeResult native args)], 1⟩ := by
  simp [ShowMessageBox, h, hc, mbNativeResult, CallV8Function, ToV8Value_int]

theorem ShowOpenDialog_sync (native : NativeLayer) (args : List V8Value)
    (b : Bool) (paths : List FilePath) (h : openDialogShapeOk args = true)
    (hc : FromV8Value_Function (getArg args 4) = none)
    (hn : odNativeResult native args = (b, paths)) :
    ShowOpenDialog native args =
      Outcome.completed
        ⟨if b then V8Value.vArray (paths.map ToV8Value_FilePath)
          else V8Value.vUndefined, [], 0⟩ := by
  rw [odNativeResult] at hn
  cases b <;> simp [ShowOpenDialog, h, hc, hn]

theorem ShowOpenDialog_async (native : NativeLayer) (args : List V8Value)
    (f : Nat) (b : Bool) (paths : List FilePath)
    (h : openDialogShapeOk args = true)
    (hc : FromV8Value_Function (getArg args 4) = some f)
    (hn : odNativeResult native args = (b, paths)) :
    ShowOpenDialog native args =
      Outcome.completed
        ⟨V8Value.vUndefined,
          [if b then ToV8Value_FilePathList paths else V8Value.vUndefined], 1⟩ := by
  rw [odNativeResult] at hn
  cases b <;>
    simp [ShowOpenDialog, h, hc, hn, CallV8Function2, CallV8Function, ToV8Value_voidPtr]

theorem ShowSaveDialog_sync (native : NativeLayer) (args : List V8Value)
    (b : Bool) (path : FilePath) (h : saveDialogShapeOk args = true)
    (hc : FromV8Value_Function (getArg args 3) = none)
    (hn : sdNativeResult native args = (b, path)) :
    ShowSaveDialog native args =
      Outcome.completed
        ⟨if b then ToV8Value_FilePath path else V8Value.vUndefined, [], 0⟩ := by
  rw [sdNativeResult] at hn
  cases b <;> simp [ShowSaveDialog, h, hc, hn]

theorem ShowSaveDialog_async (native : NativeLayer) (args : List V8Value)
    (f : Nat) (b : Bool) (path : FilePath)
    (h : saveDialogShapeOk args = true)
    (hc : FromV8Value_Function (getArg args 3) = some f)
    (hn : sdNativeResult native args = (b, path)) :
    ShowSaveDialog native args =
      Outcome.completed
        ⟨V8Value.vUndefined,
          [if b then ToV8Value_FilePath path else V8Value.vUndefined], 1⟩ := by
  rw [sdNativeResult] at hn
  cases b <;>
    simp [ShowSaveDialog, h, hc, hn, CallV8Function2, CallV8Function, ToV8Value_voidPtr]

/-- C1: for each operation and every argument list passing shape
validation, the value the synchronous call (callback slot absent) returns
directly is exactly the value the asynchronous call on the same leading
arguments (callback slot holding a function) delivers to its callback,
for the same native-primitive result. -/
theorem C1_mode_equivalence :
    (∀ (native : NativeLayer) (a0 a1 a2 a3 a4 w : V8Value) (f : Nat),
      messageBoxShapeOk [a0, a1, a2, a3, a4, w] = true →
      ∃ v : V8Value,
        ShowMessageBox native [a0, a1, a2, a3, a4, w] =
          Outcome.completed ⟨v, [], 0⟩ ∧
        ShowMessageBox native [a0, a1, a2, a3, a4, w, V8Value.vFunction f] =
          Outcome.completed ⟨V8Value.vUndefined, [v], 1⟩) ∧
    (∀ (native : NativeLayer) (a0 a1 a2 w : V8Value) (f : Nat),
      openDialogShapeOk [a0, a1, a2, w] = true →
      ∃ v : V8Value,
        ShowOpenDialog native [a0, a1, a2, w] =
          Outcome.completed ⟨v, [], 0⟩ ∧
        ShowOpenDialog native [a0, a1, a2, w, V8Value.vFunction f] =
          Outcome.completed ⟨V8Value.vUndefined, [v], 1⟩) ∧
    (∀ (native : NativeLayer) (a0 a1 w : V8Value) (f : Nat),
      saveDialogShapeOk [a0, a1, w] = true →
      ∃ v : V8Value,
        ShowSaveDialog native [a0, a1, w] =
          Outcome.completed ⟨v, [], 0⟩ ∧
        ShowSaveDialog native [a0, a1, w, V8Value.vFunction f] =
          Outcome.completed ⟨V8Value.vUndefined, [v], 1⟩) := by
  refine ⟨?_, ?_, ?_⟩
  · intro native a0 a1 a2 a3 a4 w f h
    exact ⟨V8Value.vNumber (mbNativeResult native [a0, a1, a2, a3, a4, w]),
      ShowMessageBox_sync native _ h rfl,
      ShowMessageBox_async native _ f h rfl⟩
  · intro native a0 a1 a2 w f h
    rcases hn : odNativeResult native [a0, a1, a2, w] with ⟨b, paths⟩
    refine ⟨if b then V8Value.vArray (paths.map ToV8Value_FilePath)
      else V8Value.vUndefined,
      ShowOpenDialog_sync native _ b paths h rfl hn, ?_⟩
    have := ShowOpenDialog_async native [a0, a1, a2, w, V8Value.vFunction f]
      f b paths h rfl hn
    simpa [ToV8Value_FilePathList] using this
  · intro native a0 a1 w f h
    rcases hn : sdNativeResult native [a0, a1, w] with ⟨b, path⟩
    refine ⟨if b then ToV8Value_FilePath path else V8Value.vUndefined,
      ShowSaveDialog_sync native _ b path h rfl hn, ?_⟩
    exact ShowSaveDialog_async native [a0, a1, w, V8Value.vFunction f]
      f b path h rfl hn

/-- Closed instance of the mode-equivalence theorem at concrete inputs:
the spec example message box, an open dialog and a save dialog, each run
against the sample native layer. -/
theorem C1_mode_equivalence_witness :
    (∃ v : V8Value,
      ShowMessageBox sampleNative
        [V8Value.vNumber 0, V8Value.vArray [V8Value.vString "OK"],
         V8Value.vString "T", V8Value.vString "M", V8Value.vString "D",
         V8Value.vUndefined] = Outcome.completed ⟨v, [], 0⟩ ∧
      ShowMessageBox sampleNative
        [V8Value.vNumber 0, V8Value.vArray [V8Value.vString "OK"],
         V8Value.vString "T", V8Value.vString "M", V8Value.vString "D",
         V8Value.vUndefined, V8Value.vFunction 7] =
        Outcome.completed ⟨V8Value.vUndefined, [v], 1⟩) ∧
    (∃ v : V8Value,
      ShowOpenDialog sampleNative
        [V8Value.vString "Open", V8Value.vString "", V8Value.vNumber 0,
         V8Value.vUndefined] = Outcome.completed ⟨v, [], 0⟩ ∧
      ShowOpenDialog sampleNative
        [V8Value.vString "Open", V8Value.vString "", V8Value.vNumber 0,
         V8Value.vUndefined, V8Value.vFunction 7] =
        Outcome.completed ⟨V8Value.vUndefined, [v], 1⟩) ∧
    (∃ v : V8Value,
      ShowSaveDialog sampleNative
        [V8Value.vString "Save", V8Value.vString "/tmp/x",
         V8Value.vUndefined] = Outcome.completed ⟨v, [], 0⟩ ∧
      ShowSaveDialog sampleNative
        [V8Value.vString "Save", V8Value.vString "/tmp/x",
         V8Value.vUndefined, V8Value.vFunction 7] =
        Outcome.completed ⟨V8Value.vUndefined, [v], 1⟩) :=
  ⟨C1_mode_equivalence.1 sampleNative _ _ _ _ _ _ 7 rfl,
   C1_mode_equivalence.2.1 sampleNative _ _ _ _ 7 rfl,
   C1_mode_equivalence.2.2 sampleNative _ _ _ 7 rfl⟩

/-- C2: every validated call has exactly one terminal outcome: with the
callback handle empty, the call completes with one returned value, zero
callback invocations and zero disposals; with the callback handle
present, it completes with exactly one callback invocation followed by
exactly one disposal of the handle, and never a second invocation. -/
theorem C2_single_terminal_outcome :
    ∀ (native : NativeLayer) (args : List V8Value),
      (messageBoxShapeOk args = true →
        (FromV8Value_Function (getArg args 6) = none →
          ∃ v, ShowMessageBox native args = Outcome.completed ⟨v, [], 0⟩) ∧
        (∀ f, FromV8Value_Function (getArg args 6) = some f →
          ∃ v, ShowMessageBox native args =
            Outcome.completed ⟨V8Value.vUndefined, [v], 1⟩)) ∧
      (openDialogShapeOk args = true →
        (FromV8Value_Function (getArg args 4) = none →
          ∃ v, ShowOpenDialog native args = Outcome.completed ⟨v, [], 0⟩) ∧
        (∀ f, FromV8Value_Function (getArg args 4) = some f →
          ∃ v, ShowOpenDialog native args =
            Outcome.completed ⟨V8Value.vUndefined, [v], 1⟩)) ∧
      (saveDialogShapeOk args = true →
        (FromV8Value_Function (getArg args 3) = none →
          ∃ v, ShowSaveDialog native args = Outcome.completed ⟨v, [], 0⟩) ∧
        (∀ f, FromV8Value_Function (getArg args 3) = some f →
          ∃ v, ShowSaveDialog native args =
            Outcome.completed ⟨V8Value.vUndefined, [v], 1⟩)) := by
  intro native args
  refine ⟨fun h => ⟨fun hc => ?_, fun f hc => ?_⟩,
    fun h => ⟨fun hc => ?_, fun f hc => ?_⟩,
    fun h => ⟨fun hc => ?_, fun f hc => ?_⟩⟩
  · exact ⟨_, ShowMessageBox_sync native args h hc⟩
  · exact ⟨_, ShowMessageBox_async native args f h hc⟩
  · rcases hn : odNativeResult native args with ⟨b, paths⟩
    exact ⟨_, ShowOpenDialog_sync native args b paths h hc hn⟩
  · rcases hn : odNativeResult native args with ⟨b, paths⟩
    exact ⟨_, ShowOpenDialog_async native args f b paths h hc hn⟩
  · rcases hn : sdNativeResult native args with ⟨b, path⟩
    exact ⟨_, ShowSaveDialog_sync native args b path h hc hn⟩
  · rcases hn : sdNativeResult native args with ⟨b, path⟩
    exact ⟨_, ShowSaveDialog_async native args f b path h hc hn⟩

/-- Closed instance of the single-terminal-outcome theorem: a validated
synchronous message-box call completes with a return value and no
callback invocation, and the same call with a callback completes with
exactly one invocation and one disposal. -/
theorem C2_single_terminal_outcome_witness :
    (∃ v, ShowMessageBox sampleNative
        [V8Value.vNumber 1, V8Value.vArray [], V8Value.vString "t",
         V8Value.vString "m", V8Value.vString "d"] =
      Outcome.completed ⟨v, [], 0⟩) ∧
    (∃ v, ShowMessageBox sampleNative
        [V8Value.vNumber 1, V8Value.vArray [], V8Value.vString "t",
         V8Value.vString "m", V8Value.vString "d", V8Value.vUndefined,
         V8Value.vFunction 3] =
      Outcome.completed ⟨V8Value.vUndefined, [v], 1⟩) :=
  ⟨((C2_single_terminal_outcome sampleNative
      [V8Value.vNumber 1, V8Value.vArray [], V8Value.vString "t",
       V8Value.vString "m", V8Value.vString "d"]).1 rfl).1 rfl,
   ((C2_single_terminal_outcome sampleNative
      [V8Value.vNumber 1, V8Value.vArray [], V8Value.vString "t",
       V8Value.vString "m", V8Value.vString "d", V8Value.vUndefined,
       V8Value.vFunction 3]).1 rfl).2 3 rfl⟩

/-- C3: when any operation's shape check fails, the call throws the type
error "Bad argument", uniformly in the native layer — so no native
primitive is consulted, and the thrown outcome carries no callback
invocation, no disposal, and no other effect. -/
theorem C3_shape_error_no_effects :
    ∀ args : List V8Value,
      (messageBoxShapeOk args = false → ∀ native : NativeLayer,
        ShowMessageBox native args = Outcome.typeError "Bad argument") ∧
      (openDialogShapeOk args = false → ∀ native : NativeLayer,
        ShowOpenDialog native args = Outcome.typeError "Bad argument") ∧
      (saveDialogShapeOk args = false → ∀ native : NativeLayer,
        ShowSaveDialog native args = Outcome.typeError "Bad argument") :=
  fun args =>
    ⟨fun h native => ShowMessageBox_shape_error native args h,
     fun h native => ShowOpenDialog_shape_error native args h,
     fun h native => ShowSaveDialog_shape_error native args h⟩

/-- Closed instance of the shape-error theorem: a message-box call whose
buttons argument is a string rather than an array throws "Bad argument". -/
theorem C3_shape_error_no_effects_witness :
    messageBoxShapeOk
      [V8Value.vNumber 0, V8Value.vString "not-an-array", V8Value.vString "T",
       V8Value.vString "M", V8Value.vString "D"] = false ∧
    ShowMessageBox sampleNative
      [V8Value.vNumber 0, V8Value.vString "not-an-array", V8Value.vString "T",
       V8Value.vString "M", V8Value.vString "D"] =
      Outcome.typeError "Bad argument" :=
  ⟨rfl,
   (C3_shape_error_no_effects
      [V8Value.vNumber 0, V8Value.vString "not-an-array", V8Value.vString "T",
       V8Value.vString "M", V8Value.vString "D"]).1 rfl sampleNative⟩

/-- `true` exactly when the value is an object wrapping a `Window` whose
native window is non-null: the only case in which the window coercion
produces a handle. -/
def carriesNativeWindow : V8Value → Bool
  | .vObject (some _) => true
  | _ => false

/-- C4: the window and callback coercions never fail the call: any value
not carrying a native window coerces to the absent window handle, any
non-function value coerces to the empty callback handle, and an empty
callback handle selects the synchronous path (shown on `ShowMessageBox`:
the call returns the native integer directly, invoking no callback). -/
theorem C4_coercion_degradation :
    (∀ v : V8Value, carriesNativeWindow v = false →
      FromV8Value_NativeWindow v = none) ∧
    (∀ v : V8Value, v.isFunction = false → FromV8Value_Function v = none) ∧
    (∀ (native : NativeLayer) (args : List V8Value),
      messageBoxShapeOk args = true →
      FromV8Value_Function (getArg args 6) = none →
      ShowMessageBox native args =
        Outcome.completed ⟨V8Value.vNumber (mbNativeResult native args), [], 0⟩) := by
  refine ⟨fun v hv => ?_, fun v hv => ?_,
    fun native args h hc => ShowMessageBox_sync native args h hc⟩
  · cases v <;> simp_all [carriesNativeWindow, FromV8Value_NativeWindow]
    rename_i w
    cases w <;> simp_all
  · cases v <;> simp_all [V8Value.isFunction, FromV8Value_Function]

/-- Closed instance of the coercion-degradation theorem: a number
coerces to the absent window handle, a string to the empty callback
handle, and a validated call with a non-function callback slot takes the
synchronous path. -/
theorem C4_coercion_degradation_witness :
    FromV8Value_NativeWindow (V8Value.vNumber 5) = none ∧
    FromV8Value_Function (V8Value.vString "cb") = none ∧
    ShowMessageBox sampleNative
      [V8Value.vNumber 0, V8Value.vArray [], V8Value.vString "T",
       V8Value.vString "M", V8Value.vString "D", V8Value.vNumber 5,
       V8Value.vString "cb"] =
      Outcome.completed ⟨V8Value.vNumber 0, [], 0⟩ :=
  ⟨C4_coercion_degradation.1 (V8Value.vNumber 5) rfl,
   C4_coercion_degradation.2.1 (V8Value.vString "cb") rfl,
   C4_coercion_degradation.2.2 sampleNative
     [V8Value.vNumber 0, V8Value.vArray [], V8Value.vString "T",
      V8Value.vString "M", V8Value.vString "D", V8Value.vNumber 5,
      V8Value.vString "cb"] rfl rfl⟩

/-- C5: on the asynchronous path (callback handle present) every
operation's immediate return value is `undefined`. -/
theorem C5_async_returns_undefined :
    ∀ (native : NativeLayer) (args : List V8Value) (f : Nat),
      (messageBoxShapeOk args = true →
        FromV8Value_Function (getArg args 6) = some f →
        ∃ calls d, ShowMessageBox native args =
          Outcome.completed ⟨V8Value.vUndefined, calls, d⟩) ∧
      (openDialogShapeOk args = true →
        FromV8Value_Function (getArg args 4) = some f →
        ∃ calls d, ShowOpenDialog native args =
          Outcome.completed ⟨V8Value.vUndefined, calls, d⟩) ∧
      (saveDialogShapeOk args = true →
        FromV8Value_Function (getArg args 3) = some f →
        ∃ calls d, ShowSaveDialog native args =
          Outcome.completed ⟨V8Value.vUndefined, calls, d⟩) := by
  intro native args f
  refine ⟨fun h hc => ?_, fun h hc => ?_, fun h hc => ?_⟩
  · exact ⟨_, _, ShowMessageBox_async native args f h hc⟩
  · rcases hn : odNativeResult native args with ⟨b, paths⟩
    exact ⟨_, _, ShowOpenDialog_async native args f b paths h hc hn⟩
  · rcases hn : sdNativeResult native args with ⟨b, path⟩
    exact ⟨_, _, ShowSaveDialog_async native args f b path h hc hn⟩

/-- Closed instance of the asynchronous-return theorem: an asynchronous
save-dialog call returns `undefined` immediately. -/
theorem C5_async_returns_undefined_witness :
    ∃ calls d, ShowSaveDialog sampleNative
      [V8Value.vString "Save", V8Value.vString "/tmp/x",
       V8Value.vUndefined, V8Value.vFunction 2] =
      Outcome.completed ⟨V8Value.vUndefined, calls, d⟩ :=
  (C5_async_returns_undefined sampleNative
    [V8Value.vString "Save", V8Value.vString "/tmp/x",
     V8Value.vUndefined, V8Value.vFunction 2] 2).2.2 rfl rfl

/-- C6: on the synchronous path of the open and save dialogs, a native
response with success flag `false` (user cancellation) makes the call
return `undefined` rather than throw. -/
theorem C6_sync_cancel_returns_undefined :
    ∀ (native : NativeLayer) (args : List V8Value),
      (openDialogShapeOk args = true →
        FromV8Value_Function (getArg args 4) = none →
        ∀ paths, odNativeResult native args = (false, paths) →
        ShowOpenDialog native args =
          Outcome.completed ⟨V8Value.vUndefined, [], 0⟩) ∧
      (saveDialogShapeOk args = true →
        FromV8Value_Function (getArg args 3) = none →
        ∀ path, sdNativeResult native args = (false, path) →
        ShowSaveDialog native args =
          Outcome.completed ⟨V8Value.vUndefined, [], 0⟩) := by
  intro native args
  refine ⟨fun h hc paths hn => ?_, fun h hc path hn => ?_⟩
  · simpa using ShowOpenDialog_sync native args false paths h hc hn
  · simpa using ShowSaveDialog_sync native args false path h hc hn

/-- A native layer whose file dialogs always report cancellation, used to
instantiate cancellation theorems. -/
def cancellingNative : NativeLayer where
  messageBox := fun _ _ _ _ _ _ => -1
  openDialog := fun _ _ _ _ => (false, [])
  saveDialog := fun _ _ _ => (false, ⟨""⟩)

/-- Closed instance of the synchronous-cancellation theorem: open and
save dialogs run synchronously against the cancelling native layer both
return `undefined`. -/
theorem C6_sync_cancel_returns_undefined_witness :
    ShowOpenDialog cancellingNative
      [V8Value.vString "Open", V8Value.vString "", V8Value.vNumber 0] =
      Outcome.completed ⟨V8Value.vUndefined, [], 0⟩ ∧
    ShowSaveDialog cancellingNative
      [V8Value.vString "Save", V8Value.vString "/tmp/x"] =
      Outcome.completed ⟨V8Value.vUndefined, [], 0⟩ :=
  ⟨(C6_sync_cancel_returns_undefined cancellingNative
      [V8Value.vString "Open", V8Value.vString "", V8Value.vNumber 0]).1
      rfl rfl [] rfl,
   (C6_sync_cancel_returns_undefined cancellingNative
      [V8Value.vString "Save", V8Value.vString "/tmp/x"]).2
      rfl rfl ⟨""⟩ rfl⟩

/-- C7: on the asynchronous path of the open and save dialogs, the
completion handler invokes the callback exactly once — with `undefined`
substituted when the native success flag is `false`, and with the coerced
native result when it is `true` — and disposes the handle once. -/
theorem C7_async_completion_value :
    ∀ (native : NativeLayer) (args : List V8Value) (f : Nat),
      (openDialogShapeOk args = true →
        FromV8Value_Function (getArg args 4) = some f →
        ∀ b paths, odNativeResult native args = (b, paths) →
        ShowOpenDialog native args =
          Outcome.completed
            ⟨V8Value.vUndefined,
              [if b then ToV8Value_FilePathList paths else V8Value.vUndefined],
              1⟩) ∧
      (saveDialogShapeOk args = true →
        FromV8Value_Function (getArg args 3) = some f →
        ∀ b path, sdNativeResult native args = (b, path) →
        ShowSaveDialog native args =
          Outcome.completed
            ⟨V8Value.vUndefined,
              [if b then ToV8Value_FilePath path else V8Value.vUndefined],
              1⟩) := by
  intro native args f
  exact ⟨fun h hc b paths hn => ShowOpenDialog_async native args f b paths h hc hn,
    fun h hc b path hn => ShowSaveDialog_async native args f b path h hc hn⟩

/-- Closed instance of the asynchronous-completion theorem, matching the
spec example: an asynchronous open dialog whose native layer reports
cancellation invokes the callback exactly once with `undefined`, and the
same call against a succeeding native layer invokes it once with the
converted path array. -/
theorem C7_async_completion_value_witness :
    ShowOpenDialog cancellingNative
      [V8Value.vString "Open", V8Value.vString "", V8Value.vNumber 0,
       V8Value.vUndefined, V8Value.vFunction 1] =
      Outcome.completed ⟨V8Value.vUndefined, [V8Value.vUndefined], 1⟩ ∧
    ShowOpenDialog sampleNative
      [V8Value.vString "Open", V8Value.vString "", V8Value.vNumber 0,
       V8Value.vUndefined, V8Value.vFunction 1] =
      Outcome.completed
        ⟨V8Value.vUndefined, [ToV8Value_FilePathList []], 1⟩ :=
  ⟨(C7_async_completion_value cancellingNative
      [V8Value.vString "Open", V8Value.vString "", V8Value.vNumber 0,
       V8Value.vUndefined, V8Value.vFunction 1] 1).1 rfl rfl false [] rfl,
   (C7_async_completion_value sampleNative
      [V8Value.vString "Open", V8Value.vString "", V8Value.vNumber 0,
       V8Value.vUndefined, V8Value.vFunction 1] 1).1 rfl rfl true [] rfl⟩

/-- C8: round-tripping any scripting string through the string-to-path
coercion (`FromV8Value::operator base::FilePath`) and the
path-to-string coercion (`ToV8Value(const base::FilePath&)`) yields the
identical string, byte for byte. -/
theorem C8_path_roundtrip (s : String) :
    ToV8Value_FilePath (FromV8Value_FilePath (V8Value.vString s)) =
      V8Value.vString s := rfl

/-- Closed instance of the path round-trip theorem at a concrete path
containing multi-byte characters. -/
theorem C8_path_roundtrip_witness :
    ToV8Value_FilePath
      (FromV8Value_FilePath (V8Value.vString "/tmp/ä/ü.txt")) =
      V8Value.vString "/tmp/ä/ü.txt" :=
  C8_path_roundtrip "/tmp/ä/ü.txt"

/-- C9: on the synchronous path `ShowMessageBox` returns exactly the
integer produced by the native message-box primitive, with no
distinction made for a dismissal sentinel such as -1. -/
theorem C9_sync_messagebox_returns_native_int :
    ∀ (native : NativeLayer) (args : List V8Value),
      messageBoxShapeOk args = true →
      FromV8Value_Function (getArg args 6) = none →
      ShowMessageBox native args =
        Outcome.completed
          ⟨V8Value.vNumber (mbNativeResult native args), [], 0⟩ :=
  fun native args h hc => ShowMessageBox_sync native args h hc

/-- Closed instance of the synchronous message-box theorem, matching the
spec example: with the native layer reporting button index 0 the call
returns 0; with the cancelling layer reporting -1 the call returns -1
unchanged. -/
theorem C9_sync_messagebox_returns_native_int_witness :
    ShowMessageBox sampleNative
      [V8Value.vNumber 0,
       V8Value.vArray [V8Value.vString "OK", V8Value.vString "Cancel"],
       V8Value.vString "T", V8Value.vString "M", V8Value.vString "D"] =
      Outcome.completed ⟨V8Value.vNumber 0, [], 0⟩ ∧
    ShowMessageBox cancellingNative
      [V8Value.vNumber 0,
       V8Value.vArray [V8Value.vString "OK", V8Value.vString "Cancel"],
       V8Value.vString "T", V8Value.vString "M", V8Value.vString "D"] =
      Outcome.completed ⟨V8Value.vNumber (-1), [], 0⟩ :=
  ⟨C9_sync_messagebox_returns_native_int sampleNative
      [V8Value.vNumber 0,
       V8Value.vArray [V8Value.vString "OK", V8Value.vString "Cancel"],
       V8Value.vString "T", V8Value.vString "M", V8Value.vString "D"]
      rfl rfl,
   C9_sync_messagebox_returns_native_int cancellingNative
      [V8Value.vNumber 0,
       V8Value.vArray [V8Value.vString "OK", V8Value.vString "Cancel"],
       V8Value.vString "T", V8Value.vString "M", V8Value.vString "D"]
      rfl rfl⟩

/-- C10: the elements of the buttons array are never shape-checked: with
the buttons argument an array of arbitrary elements the call passes
validation, and the native primitive receives each element rendered to
its UTF-8 string representation. -/
theorem C10_buttons_elements_unchecked :
    ∀ (native : NativeLayer) (a0 : V8Value) (elems : List V8Value)
      (a2 a3 a4 : V8Value),
      a0.isNumber = true → a2.isString = true → a3.isString = true →
      a4.isString = true →
      messageBoxShapeOk [a0, V8Value.vArray elems, a2, a3, a4] = true ∧
      ShowMessageBox native [a0, V8Value.vArray elems, a2, a3, a4] =
        Outcome.completed
          ⟨V8Value.vNumber
            (native.messageBox none (FromV8Value_int a0)
              (elems.map FromV8Value_string) (FromV8Value_string a2)
              (FromV8Value_string a3) (FromV8Value_string a4)), [], 0⟩ := by
  intro native a0 elems a2 a3 a4 h0 h2 h3 h4
  have hshape : messageBoxShapeOk [a0, V8Value.vArray elems, a2, a3, a4] = true := by
    simp [messageBoxShapeOk, getArg, h0, h2, h3, h4, V8Value.isArray]
  exact ⟨hshape, ShowMessageBox_sync native _ hshape rfl⟩

/-- Closed instance of the unchecked-buttons theorem: a buttons array
mixing a number, `undefined` and a plain object passes validation, and
the native primitive receives the strings "1", "undefined" and
"[object Object]". -/
theorem C10_buttons_elements_unchecked_witness :
    List.map FromV8Value_string
        [V8Value.vNumber 1, V8Value.vUndefined, V8Value.vObject none] =
      ["1", "undefined", "[object Object]"] ∧
    messageBoxShapeOk
      [V8Value.vNumber 0,
       V8Value.vArray
         [V8Value.vNumber 1, V8Value.vUndefined, V8Value.vObject none],
       V8Value.vString "T", V8Value.vString "M", V8Value.vString "D"] = true ∧
    ShowMessageBox sampleNative
      [V8Value.vNumber 0,
       V8Value.vArray
         [V8Value.vNumber 1, V8Value.vUndefined, V8Value.vObject none],
       V8Value.vString "T", V8Value.vString "M", V8Value.vString "D"] =
      Outcome.completed
        ⟨V8Value.vNumber
          (sampleNative.messageBox none 0 ["1", "undefined", "[object Object]"]
            "T" "M" "D"), [], 0⟩ :=
  ⟨rfl,
   (C10_buttons_elements_unchecked sampleNative (V8Value.vNumber 0)
      [V8Value.vNumber 1, V8Value.vUndefined, V8Value.vObject none]
      (V8Value.vString "T") (V8Value.vString "M") (V8Value.vString "D")
      rfl rfl rfl rfl).1,
   (C10_buttons_elements_unchecked sampleNative (V8Value.vNumber 0)
      [V8Value.vNumber 1, V8Value.vUndefined, V8Value.vObject none]
      (V8Value.vString "T") (V8Value.vString "M") (V8Value.vString "D")
      rfl rfl rfl rfl).2⟩

end AtomDialog
